import Mathlib

/-!
Verification development for the vulnerability-service core of pip-audit:
the dependency model, the vulnerability-record normalization rules and the
PyPI feed client behaviour of `query_all`.

The concrete implementation modules (`pip_audit/_service/interface.py` and
`pip_audit/_service/pypi.py`) are not part of the provided sources; only the
package re-exports and the test suite (`test/service/test_pypi.py`) are.
The definitions below are therefore modelled from the specification, with
every observable string and behaviour that the test suite pins down taken
from the test suite.
-/

set_option autoImplicit false

/-- The apostrophe character as a string, built from its code point. -/
def apos : String := ⟨[Char.ofNat 39]⟩

/-- Modelled from the spec: a parsed package version (missing
`packaging.version.Version`), reduced to its dot-separated numeric release
segments, which is all the feed client and the tests exercise. -/
structure PyVersion where
  parts : List Nat
deriving DecidableEq, Repr

/-- Accumulating decimal reader over characters; fails on any non-digit. -/
def parseDigits : List Char → Nat → Option Nat
  | [], acc => some acc
  | c :: cs, acc =>
    if c.isDigit then parseDigits cs (10 * acc + (c.toNat - 48))
    else none

/-- Split a character list on the dot character. -/
def splitDots : List Char → List (List Char)
  | [] => [[]]
  | c :: cs =>
    if c = '.' then [] :: splitDots cs
    else
      match splitDots cs with
      | g :: gs => (c :: g) :: gs
      | [] => [[c]]

/-- Parse one digit group; the empty group fails. -/
def parseGroup (g : List Char) : Option Nat :=
  if g.isEmpty then none else parseDigits g 0

/-- Modelled from the spec: version-string parsing (missing
`packaging.version.Version` constructor): dot-separated non-empty digit
groups; anything else is a parse failure. -/
def parseVersion (s : String) : Option PyVersion :=
  if s.data.isEmpty then none
  else ((splitDots s.data).mapM parseGroup).map PyVersion.mk

/-- Render a version back to its dotted string form. -/
def versionStr (v : PyVersion) : String :=
  match v.parts with
  | [] => ""
  | p :: ps => ps.foldl (fun acc n => acc ++ "." ++ toString n) (toString p)

/-- Modelled from the spec: a dependency the resolver fully resolved
(missing `pip_audit._service.interface.ResolvedDependency`): a name, a
version and an optional algorithm-to-digests hash map. -/
structure ResolvedDependency where
  name : String
  version : PyVersion
  hashes : List (String × List String) := []
deriving DecidableEq, Repr

/-- Modelled from the spec: a dependency that was skipped (missing
`pip_audit._service.interface.SkippedDependency`). -/
structure SkippedDependency where
  name : String
  skip_reason : String
deriving DecidableEq, Repr

/-- Modelled from the spec: the closed dependency variant set (missing
`pip_audit._service.interface.Dependency`); the two variants are never
equal to each other. -/
inductive Dependency
  | resolved (d : ResolvedDependency)
  | skipped (s : SkippedDependency)
deriving DecidableEq, Repr

/-- Modelled from the spec: a normalized vulnerability entry (missing
`pip_audit._service.interface.VulnerabilityResult`); the published
timestamp is kept in its raw string form. -/
structure VulnerabilityResult where
  id : String
  description : String
  fix_versions : List PyVersion
  aliases : List String
  published : Option String
deriving DecidableEq, Repr

/-- Modelled from the spec: the error taxonomy (missing
`pip_audit._service.interface.ServiceError` and its `ConnectionError`
subtype), as error values carrying a descriptive message. -/
inductive ServiceErr
  | connectionError (msg : String)
  | serviceError (msg : String)
deriving DecidableEq, Repr

/-- A raw feed vulnerability record, as found in the JSON body.  String
fields distinguish a missing key (`none`) from a key present with a null
value (`some none`), matching the JSON payloads the test suite builds. -/
structure RawVuln where
  id : String
  summary : Option (Option String) := none
  details : Option (Option String) := none
  fixed_in : List String := []
  aliases : List String := []
  withdrawn : Option String := none
  published : Option String := none
deriving DecidableEq, Repr

/-- One release artifact entry of the release metadata, carrying its
algorithm-to-digest map. -/
structure Artifact where
  digests : List (String × String)
deriving DecidableEq, Repr

/-- A parsed JSON response body: release artifact entries under `urls` and
an optional `vulnerabilities` list. -/
structure ResponseBody where
  urls : List Artifact := []
  vulnerabilities : Option (List RawVuln) := none
deriving DecidableEq, Repr

/-- The outcome of one HTTP GET against the feed: a transport-level
failure (redirect loop or connect timeout) or an HTTP response with a
status code and body. -/
inductive FeedResponse
  | tooManyRedirects
  | connectTimeout
  | http (status : Nat) (body : ResponseBody)
deriving DecidableEq, Repr

/-- Lower-case a character and map underscore and dot to a dash. -/
def dashify (c : Char) : Char :=
  if c = '_' ∨ c = '.' then '-' else c.toLower

/-- Collapse consecutive dashes into one. -/
def squeezeDashes : List Char → List Char
  | [] => []
  | [c] => [c]
  | c :: d :: cs =>
    if c = '-' ∧ d = '-' then squeezeDashes (d :: cs)
    else c :: squeezeDashes (d :: cs)

/-- Modelled from the spec: package-name canonicalization (lower-case,
runs of dash, underscore and dot collapse to a single dash). -/
def canonicalName (s : String) : String :=
  ⟨squeezeDashes (s.data.map dashify)⟩

/-- The per-package-and-version vulnerability endpoint URL. -/
def depUrl (d : ResolvedDependency) : String :=
  "https://pypi.org/pypi/" ++ canonicalName d.name ++ "/" ++ versionStr d.version ++ "/json"

/-- Map a newline character to a space, leaving everything else alone. -/
def nlToSpace (c : Char) : Char :=
  if c = '\n' then ' ' else c

/-- Collapse every embedded newline of a string to a single space. -/
def collapseNewlines (s : String) : String :=
  ⟨s.data.map nlToSpace⟩

/-- Whether a string contains a newline character. -/
def hasNewline (s : String) : Bool :=
  s.data.contains '\n'

/-- The field the description fallback chain chooses: the summary when it
is present and non-null, else the details when present and non-null, else
the literal N/A marker. -/
def chosenField (summary details : Option (Option String)) : String :=
  (summary.join).getD ((details.join).getD "N/A")

/-- Modelled from the spec: build the description of a vulnerability
record (missing `pip_audit._service.pypi`): prefer the summary, fall back
to the details, then to the literal N/A, and collapse embedded newlines of
whichever field was chosen. -/
def buildDescription (summary details : Option (Option String)) : String :=
  collapseNewlines (chosenField summary details)

/-- Map a fallible function over a list, stopping at the first error. -/
def exceptMap {α β : Type} (f : α → Except ServiceErr β) : List α → Except ServiceErr (List β)
  | [] => .ok []
  | x :: xs =>
    match f x with
    | .error e => .error e
    | .ok y =>
      match exceptMap f xs with
      | .error e => .error e
      | .ok ys => .ok (y :: ys)

/-- Modelled from the spec: parse one `fixed_in` entry; a parse failure is
a fatal service error for the whole dependency. -/
def parseFixVersion (v : String) : Except ServiceErr PyVersion :=
  match parseVersion v with
  | none => .error (.serviceError ("Received malformed version from PyPI: " ++ v))
  | some pv => .ok pv

/-- Parse all `fixed_in` entries of a record. -/
def parseFixVersions (l : List String) : Except ServiceErr (List PyVersion) :=
  exceptMap parseFixVersion l

/-- Modelled from the spec: normalize one raw record into a
`VulnerabilityResult`. -/
def vulnResult (r : RawVuln) : Except ServiceErr VulnerabilityResult :=
  match parseFixVersions r.fixed_in with
  | .error e => .error e
  | .ok fvs => .ok ⟨r.id, buildDescription r.summary r.details, fvs, r.aliases, r.published⟩

/-- The debug notice emitted for a withdrawn record, naming the record id
and the withdrawal timestamp; its exact shape is pinned by
`test_pypi_vuln_withdrawn`. -/
def withdrawnMsg (id ts : String) : String :=
  "PyPI vuln entry " ++ apos ++ id ++ apos ++ " marked as withdrawn at " ++ ts

/-- Modelled from the spec: walk the raw records in order; a record with a
withdrawal marker is skipped entirely and logged at debug level, every
other record is normalized, and the first normalization error aborts the
whole dependency. -/
def processVulns : List RawVuln → Except ServiceErr (List VulnerabilityResult × List String)
  | [] => .ok ([], [])
  | r :: rs =>
    match r.withdrawn with
    | some ts =>
      match processVulns rs with
      | .error e => .error e
      | .ok (vs, logs) => .ok (vs, withdrawnMsg r.id ts :: logs)
    | none =>
      match vulnResult r with
      | .error e => .error e
      | .ok v =>
        match processVulns rs with
        | .error e => .error e
        | .ok (vs, logs) => .ok (v :: vs, logs)

/-- The normalized results of only the non-withdrawn records, in record
order. -/
def activeResults (rs : List RawVuln) : Except ServiceErr (List VulnerabilityResult) :=
  exceptMap vulnResult (rs.filter fun r => r.withdrawn.isNone)

/-- Whether some recorded artifact carries the given digest under the
given algorithm. -/
def digestMatches (urls : List Artifact) (alg digest : String) : Bool :=
  urls.any fun a => a.digests.lookup alg = some digest

/-- Whether any supplied (algorithm, digest) pair matches a recorded
artifact digest. -/
def anyHashMatch (hashes : List (String × List String)) (urls : List Artifact) : Bool :=
  hashes.any fun h => h.2.any fun digest => digestMatches urls h.1 digest

/-- Modelled from the spec: the hash-integrity cross-check.  With no
supplied hashes it is a no-op; with hashes, missing release artifact
entries are fatal, and a match on any single supplied digest is
sufficient to accept the dependency. -/
def checkHashes (d : ResolvedDependency) (body : ResponseBody) : Except ServiceErr Unit :=
  if d.hashes.isEmpty then .ok ()
  else if body.urls.isEmpty then
    .error (.serviceError ("No available release information for: " ++ d.name))
  else if anyHashMatch d.hashes body.urls then .ok ()
  else .error (.serviceError ("Mismatched hash for: " ++ d.name))

/-- The skip reason synthesized for a dependency the feed does not know;
its exact shape is pinned by `test_pypi_http_notfound`. -/
def notFoundReason (d : ResolvedDependency) : String :=
  "Dependency not found on PyPI and could not be audited: " ++ d.name
    ++ " (" ++ versionStr d.version ++ ")"

/-- The message of the redirect-loop connection error, pinned by
`test_pypi_redirect_loop`. -/
def redirectMsg : String := "PyPI is not redirecting properly"

/-- The message of the connect-timeout connection error, pinned by
`test_pypi_connect_timeout`. -/
def connectMsg : String := "Could not connect to PyPI" ++ apos ++ "s vulnerability feed"

deriving instance DecidableEq for Except

/-- The outcome of processing one input dependency: either a fatal error
or one output pair, together with the debug log lines emitted and the
request URLs issued. -/
structure StepOut where
  result : Except ServiceErr (Dependency × List VulnerabilityResult)
  logs : List String
  requests : List String
deriving DecidableEq, Repr

/-- Modelled from the spec: the per-dependency procedure of the PyPI feed
client (missing `pip_audit._service.pypi.PyPIService`).  A skipped
dependency passes through untouched with no network access; a resolved
dependency triggers one GET whose outcome is classified in order
(redirect loop, connect timeout, 404, other HTTP error, success), with the
404 case re-keyed under a fresh `SkippedDependency`; a successful body has
its records normalized and then the hash-integrity check applied. -/
def queryOne (feed : ResolvedDependency → FeedResponse) : Dependency → StepOut
  | .skipped s => ⟨.ok (.skipped s, []), [], []⟩
  | .resolved d =>
    match feed d with
    | .tooManyRedirects => ⟨.error (.connectionError redirectMsg), [], [depUrl d]⟩
    | .connectTimeout => ⟨.error (.connectionError connectMsg), [], [depUrl d]⟩
    | .http status body =>
      if 400 ≤ status ∧ status < 600 then
        if status = 404 then
          ⟨.ok (.skipped ⟨d.name, notFoundReason d⟩, []), [notFoundReason d], [depUrl d]⟩
        else
          ⟨.error (.serviceError ("Failed to query PyPI for " ++ depUrl d)), [], [depUrl d]⟩
      else
        match processVulns (body.vulnerabilities.getD []) with
        | .error e => ⟨.error e, [], [depUrl d]⟩
        | .ok (vs, logs) =>
          match checkHashes d body with
          | .error e => ⟨.error e, logs, [depUrl d]⟩
          | .ok _ => ⟨.ok (.resolved d, vs), logs, [depUrl d]⟩

/-- The observable outcome of a whole `query_all` enumeration: the pairs
yielded before any fatal error, the fatal error if one occurred, the debug
log lines, and the request URLs issued. -/
structure QueryOutput where
  pairs : List (Dependency × List VulnerabilityResult)
  error : Option ServiceErr
  logs : List String
  requests : List String
deriving DecidableEq, Repr

/-- Modelled from the spec: `query_all` of the PyPI feed client (missing
`pip_audit._service.pypi.PyPIService.query_all`): each input dependency is
handled in order by the per-dependency procedure; the first fatal error
aborts the enumeration, and pairs yielded before it are kept. -/
def query_all (feed : ResolvedDependency → FeedResponse) : List Dependency → QueryOutput
  | [] => ⟨[], none, [], []⟩
  | dep :: deps =>
    match (queryOne feed dep).result with
    | .error e => ⟨[], some e, (queryOne feed dep).logs, (queryOne feed dep).requests⟩
    | .ok p =>
      let rest := query_all feed deps
      ⟨p :: rest.pairs, rest.error, (queryOne feed dep).logs ++ rest.logs,
        (queryOne feed dep).requests ++ rest.requests⟩

/-- The request URLs a dependency list should give rise to: one per
resolved dependency, none for a skipped one. -/
def urlsOf (deps : List Dependency) : List String :=
  deps.filterMap fun dep =>
    match dep with
    | .resolved d => some (depUrl d)
    | .skipped _ => none

/-- A feed that gives every dependency the same response; used to build
concrete scenarios mirroring the mock sessions of the test suite. -/
def constFeed (resp : FeedResponse) : ResolvedDependency → FeedResponse :=
  fun _ => resp

/-! ## Basic lemmas about the record-normalization pipeline -/

theorem exceptMap_ok_mem {α β : Type} (f : α → Except ServiceErr β) :
    ∀ {l : List α} {ys : List β}, exceptMap f l = .ok ys →
      ∀ {x : α}, x ∈ l → ∃ y, f x = .ok y := by
  intro l
  induction l with
  | nil => intro ys h x hx; cases hx
  | cons a as ih =>
    intro ys h x hx
    simp only [exceptMap] at h
    cases hfa : f a with
    | error e => rw [hfa] at h; cases h
    | ok y =>
      rw [hfa] at h
      cases hm : exceptMap f as with
      | error e => rw [hm] at h; cases h
      | ok ys2 =>
        rw [hm] at h
        rcases List.mem_cons.mp hx with hx1 | hx2
        · exact ⟨y, hx1 ▸ hfa⟩
        · exact ih hm hx2

theorem exceptMap_mem_error {α β : Type} (f : α → Except ServiceErr β) :
    ∀ {l : List α} {x : α} {e : ServiceErr}, x ∈ l → f x = .error e →
      ∃ e2, exceptMap f l = .error e2 := by
  intro l
  induction l with
  | nil => intro x e hx; cases hx
  | cons a as ih =>
    intro x e hx hfx
    simp only [exceptMap]
    cases hfa : f a with
    | error e3 => exact ⟨e3, rfl⟩
    | ok y =>
      rcases List.mem_cons.mp hx with hx1 | hx2
      · rw [hx1] at hfx; rw [hfx] at hfa; cases hfa
      · rcases ih hx2 hfx with ⟨e2, hm⟩
        rw [hm]
        exact ⟨e2, rfl⟩

theorem exceptMap_error_shape {α β : Type} (f : α → Except ServiceErr β)
    (hf : ∀ x e, f x = .error e → ∃ m, e = .serviceError m) :
    ∀ {l : List α} {e : ServiceErr}, exceptMap f l = .error e → ∃ m, e = .serviceError m := by
  intro l
  induction l with
  | nil => intro e h; cases h
  | cons a as ih =>
    intro e h
    simp only [exceptMap] at h
    cases hfa : f a with
    | error e3 =>
      rw [hfa] at h
      cases h
      exact hf a e hfa
    | ok y =>
      rw [hfa] at h
      cases hm : exceptMap f as with
      | error e2 =>
        rw [hm] at h
        cases h
        exact ih hm
      | ok ys => rw [hm] at h; cases h

theorem parseFixVersion_error_shape (v : String) (e : ServiceErr)
    (h : parseFixVersion v = .error e) : ∃ m, e = .serviceError m := by
  unfold parseFixVersion at h
  cases hp : parseVersion v with
  | none => rw [hp] at h; cases h; exact ⟨_, rfl⟩
  | some pv => rw [hp] at h; cases h

theorem vulnResult_error_shape (r : RawVuln) (e : ServiceErr)
    (h : vulnResult r = .error e) : ∃ m, e = .serviceError m := by
  unfold vulnResult at h
  cases hp : parseFixVersions r.fixed_in with
  | error e2 =>
    rw [hp] at h
    cases h
    exact exceptMap_error_shape parseFixVersion parseFixVersion_error_shape hp
  | ok fvs => rw [hp] at h; cases h

theorem vulnResult_bad_entry (r : RawVuln) (v : String) (hv : v ∈ r.fixed_in)
    (hbad : parseVersion v = none) : ∃ e, vulnResult r = .error e := by
  have hfx : parseFixVersion v = .error (.serviceError ("Received malformed version from PyPI: " ++ v)) := by
    unfold parseFixVersion
    rw [hbad]
  rcases exceptMap_mem_error parseFixVersion hv hfx with ⟨e2, hm⟩
  refine ⟨e2, ?_⟩
  unfold vulnResult
  rw [show parseFixVersions r.fixed_in = .error e2 from hm]

theorem processVulns_ok :
    ∀ {rs : List RawVuln} {vs : List VulnerabilityResult} {logs : List String},
      processVulns rs = .ok (vs, logs) →
      activeResults rs = .ok vs ∧
        ∀ r ∈ rs, ∀ ts, r.withdrawn = some ts → withdrawnMsg r.id ts ∈ logs := by
  intro rs
  induction rs with
  | nil =>
    intro vs logs h
    simp only [processVulns, Except.ok.injEq, Prod.mk.injEq] at h
    obtain ⟨h1, h2⟩ := h
    subst h1; subst h2
    constructor
    · simp [activeResults, exceptMap]
    · intro r hr; cases hr
  | cons r rs ih =>
    intro vs logs h
    simp only [processVulns] at h
    cases hw : r.withdrawn with
    | some ts =>
      rw [hw] at h
      cases hp : processVulns rs with
      | error e => rw [hp] at h; cases h
      | ok p =>
        obtain ⟨vs2, logs2⟩ := p
        rw [hp] at h
        simp only [Except.ok.injEq, Prod.mk.injEq] at h
        obtain ⟨h1, h2⟩ := h
        subst h1; subst h2
        obtain ⟨ha, hl⟩ := ih hp
        constructor
        · simpa [activeResults, List.filter, hw] using ha
        · intro r2 hr2 ts2 hw2
          rcases List.mem_cons.mp hr2 with he | hm
          · subst he
            rw [hw] at hw2
            cases hw2
            exact List.mem_cons_self _ _
          · exact List.mem_cons_of_mem _ (hl r2 hm ts2 hw2)
    | none =>
      rw [hw] at h
      cases hv : vulnResult r with
      | error e => rw [hv] at h; cases h
      | ok v =>
        rw [hv] at h
        cases hp : processVulns rs with
        | error e => rw [hp] at h; cases h
        | ok p =>
          obtain ⟨vs2, logs2⟩ := p
          rw [hp] at h
          simp only [Except.ok.injEq, Prod.mk.injEq] at h
          obtain ⟨h1, h2⟩ := h
          subst h1; subst h2
          obtain ⟨ha, hl⟩ := ih hp
          constructor
          · simp only [activeResults, List.filter, hw, Option.isNone_none, exceptMap, hv]
            simp only [activeResults] at ha
            rw [ha]
          · intro r2 hr2 ts2 hw2
            rcases List.mem_cons.mp hr2 with he | hm
            · subst he; rw [hw] at hw2; cases hw2
            · exact hl r2 hm ts2 hw2

theorem processVulns_error_shape :
    ∀ {rs : List RawVuln} {e : ServiceErr}, processVulns rs = .error e →
      ∃ m, e = .serviceError m := by
  intro rs
  induction rs with
  | nil => intro e h; cases h
  | cons r rs ih =>
    intro e h
    simp only [processVulns] at h
    cases hw : r.withdrawn with
    | some ts =>
      rw [hw] at h
      cases hp : processVulns rs with
      | error e2 => rw [hp] at h; cases h; exact ih hp
      | ok p => obtain ⟨vs, logs⟩ := p; rw [hp] at h; cases h
    | none =>
      rw [hw] at h
      cases hv : vulnResult r with
      | error e2 => rw [hv] at h; cases h; exact vulnResult_error_shape r e hv
      | ok v =>
        rw [hv] at h
        cases hp : processVulns rs with
        | error e2 => rw [hp] at h; cases h; exact ih hp
        | ok p => obtain ⟨vs, logs⟩ := p; rw [hp] at h; cases h

theorem processVulns_bad_record :
    ∀ {rs : List RawVuln} {r : RawVuln} {e : ServiceErr}, r ∈ rs → r.withdrawn = none →
      vulnResult r = .error e → ∃ e2, processVulns rs = .error e2 := by
  intro rs
  induction rs with
  | nil => intro r e hr; cases hr
  | cons a as ih =>
    intro r e hr hw hv
    simp only [processVulns]
    rcases List.mem_cons.mp hr with he | hm
    · subst he
      rw [hw, hv]
      exact ⟨e, rfl⟩
    · cases hwa : a.withdrawn with
      | some ts =>
        rcases ih hm hw hv with ⟨e2, hp⟩
        rw [hp]
        exact ⟨e2, rfl⟩
      | none =>
        cases hva : vulnResult a with
        | error e3 => exact ⟨e3, rfl⟩
        | ok v =>
          rcases ih hm hw hv with ⟨e2, hp⟩
          rw [hp]
          exact ⟨e2, rfl⟩

/-! ## Lemmas about the per-dependency step and the whole enumeration -/

theorem queryOne_skipped (feed : ResolvedDependency → FeedResponse) (s : SkippedDependency) :
    queryOne feed (.skipped s) = ⟨.ok (.skipped s, []), [], []⟩ := rfl

theorem queryOne_requests (feed : ResolvedDependency → FeedResponse) (d : ResolvedDependency) :
    (queryOne feed (.resolved d)).requests = [depUrl d] := by
  cases hfeed : feed d with
  | tooManyRedirects => simp [queryOne, hfeed]
  | connectTimeout => simp [queryOne, hfeed]
  | http status body =>
    simp only [queryOne, hfeed]
    split
    · split <;> rfl
    · split
      · rfl
      · split <;> rfl

theorem queryOne_notfound (feed : ResolvedDependency → FeedResponse) (d : ResolvedDependency)
    (body : ResponseBody) (hfeed : feed d = .http 404 body) :
    queryOne feed (.resolved d) =
      ⟨.ok (.skipped ⟨d.name, notFoundReason d⟩, []), [notFoundReason d], [depUrl d]⟩ := by
  simp only [queryOne, hfeed]
  rw [if_pos (by constructor <;> omega)]
  simp

theorem queryOne_http_error (feed : ResolvedDependency → FeedResponse) (d : ResolvedDependency)
    (status : Nat) (body : ResponseBody) (hfeed : feed d = .http status body)
    (h400 : 400 ≤ status) (h600 : status < 600) (h404 : status ≠ 404) :
    queryOne feed (.resolved d) =
      ⟨.error (.serviceError ("Failed to query PyPI for " ++ depUrl d)), [], [depUrl d]⟩ := by
  simp only [queryOne, hfeed]
  rw [if_pos ⟨h400, h600⟩, if_neg h404]

theorem queryOne_success (feed : ResolvedDependency → FeedResponse) (d : ResolvedDependency)
    (status : Nat) (body : ResponseBody) (hfeed : feed d = .http status body)
    (hst : ¬(400 ≤ status ∧ status < 600)) :
    queryOne feed (.resolved d) =
      match processVulns (body.vulnerabilities.getD []) with
      | .error e => ⟨.error e, [], [depUrl d]⟩
      | .ok (vs, logs) =>
        match checkHashes d body with
        | .error e => ⟨.error e, logs, [depUrl d]⟩
        | .ok _ => ⟨.ok (.resolved d, vs), logs, [depUrl d]⟩ := by
  simp only [queryOne, hfeed]
  rw [if_neg hst]

theorem query_all_nil (feed : ResolvedDependency → FeedResponse) :
    query_all feed [] = ⟨[], none, [], []⟩ := rfl

theorem query_all_cons_error (feed : ResolvedDependency → FeedResponse) (dep : Dependency)
    (deps : List Dependency) (e : ServiceErr)
    (h : (queryOne feed dep).result = .error e) :
    query_all feed (dep :: deps) =
      ⟨[], some e, (queryOne feed dep).logs, (queryOne feed dep).requests⟩ := by
  simp only [query_all, h]

theorem query_all_cons_ok (feed : ResolvedDependency → FeedResponse) (dep : Dependency)
    (deps : List Dependency) (p : Dependency × List VulnerabilityResult)
    (h : (queryOne feed dep).result = .ok p) :
    query_all feed (dep :: deps) =
      ⟨p :: (query_all feed deps).pairs, (query_all feed deps).error,
        (queryOne feed dep).logs ++ (query_all feed deps).logs,
        (queryOne feed dep).requests ++ (query_all feed deps).requests⟩ := by
  simp only [query_all, h]

theorem query_all_singleton_of_step (feed : ResolvedDependency → FeedResponse) (dep : Dependency)
    (p : Dependency × List VulnerabilityResult) (logs requests : List String)
    (h : queryOne feed dep = ⟨.ok p, logs, requests⟩) :
    query_all feed [dep] = ⟨[p], none, logs, requests⟩ := by
  rw [query_all_cons_ok feed dep [] p (by rw [h])]
  rw [h, query_all_nil]
  simp

theorem query_all_singleton_of_error (feed : ResolvedDependency → FeedResponse) (dep : Dependency)
    (e : ServiceErr) (logs requests : List String)
    (h : queryOne feed dep = ⟨.error e, logs, requests⟩) :
    query_all feed [dep] = ⟨[], some e, logs, requests⟩ := by
  rw [query_all_cons_error feed dep [] e (by rw [h])]
  rw [h]

theorem query_all_ok_steps (feed : ResolvedDependency → FeedResponse) :
    ∀ {deps : List Dependency}, (query_all feed deps).error = none →
      ∀ dep ∈ deps, ∃ p, (queryOne feed dep).result = .ok p ∧ p ∈ (query_all feed deps).pairs := by
  intro deps
  induction deps with
  | nil => intro hok dep h; cases h
  | cons a as ih =>
    intro hok dep hmem
    cases hr : (queryOne feed a).result with
    | error e =>
      rw [query_all_cons_error feed a as e hr] at hok
      cases hok
    | ok p =>
      rw [query_all_cons_ok feed a as p hr] at hok ⊢
      rcases List.mem_cons.mp hmem with he | hm
      · exact ⟨p, he ▸ hr, List.mem_cons_self _ _⟩
      · rcases ih hok dep hm with ⟨p2, hp2, hmem2⟩
        exact ⟨p2, hp2, List.mem_cons_of_mem _ hmem2⟩

theorem query_all_requests (feed : ResolvedDependency → FeedResponse) :
    ∀ {deps : List Dependency}, (query_all feed deps).error = none →
      (query_all feed deps).requests = urlsOf deps := by
  intro deps
  induction deps with
  | nil => intro hok; rfl
  | cons a as ih =>
    intro hok
    cases hr : (queryOne feed a).result with
    | error e =>
      rw [query_all_cons_error feed a as e hr] at hok
      cases hok
    | ok p =>
      rw [query_all_cons_ok feed a as p hr] at hok ⊢
      cases a with
      | skipped s =>
        simp only [queryOne_skipped, urlsOf, List.filterMap_cons]
        simpa [urlsOf] using ih hok
      | resolved d =>
        simp only [queryOne_requests, urlsOf, List.filterMap_cons]
        simpa [urlsOf] using ih hok

theorem query_all_keys (feed : ResolvedDependency → FeedResponse) :
    ∀ {deps : List Dependency}, (query_all feed deps).error = none →
      (∀ (d : ResolvedDependency) (body : ResponseBody),
        Dependency.resolved d ∈ deps → feed d ≠ .http 404 body) →
      (query_all feed deps).pairs.map Prod.fst = deps := by
  intro deps
  induction deps with
  | nil => intro hok h404; rfl
  | cons a as ih =>
    intro hok h404
    cases hr : (queryOne feed a).result with
    | error e =>
      rw [query_all_cons_error feed a as e hr] at hok
      cases hok
    | ok p =>
      rw [query_all_cons_ok feed a as p hr] at hok ⊢
      simp only [List.map_cons]
      have htail : (query_all feed as).pairs.map Prod.fst = as :=
        ih hok (fun d body hmem => h404 d body (List.mem_cons_of_mem _ hmem))
      rw [htail]
      have hfst : p.1 = a := by
        cases a with
        | skipped s =>
          rw [queryOne_skipped] at hr
          cases hr
          rfl
        | resolved d =>
          cases hfeed : feed d with
          | tooManyRedirects => simp only [queryOne, hfeed] at hr; cases hr
          | connectTimeout => simp only [queryOne, hfeed] at hr; cases hr
          | http status body =>
            by_cases h1 : 400 ≤ status ∧ status < 600
            · by_cases h2 : status = 404
              · subst h2
                exact absurd hfeed (h404 d body (List.mem_cons_self _ _))
              · rw [queryOne_http_error feed d status body hfeed h1.1 h1.2 h2] at hr
                cases hr
            · rw [queryOne_success feed d status body hfeed h1] at hr
              cases hp : processVulns (body.vulnerabilities.getD []) with
              | error e => rw [hp] at hr; cases hr
              | ok q =>
                obtain ⟨vs, logs⟩ := q
                rw [hp] at hr
                cases hc : checkHashes d body with
                | error e => rw [hc] at hr; cases hr
                | ok u =>
                  rw [hc] at hr
                  cases hr
                  rfl
      rw [hfst]

/-! ## String lemmas for the description normalization -/

theorem nlToSpace_ne_newline (c : Char) : ¬ nlToSpace c = '\n' := by
  by_cases h : c = '\n' <;> simp [nlToSpace, h]

theorem hasNewline_collapseNewlines (s : String) :
    hasNewline (collapseNewlines s) = false := by
  simp only [hasNewline, collapseNewlines]
  show (s.data.map nlToSpace).contains '\n' = false
  simp only [List.contains_eq_any_beq, List.any_map, List.any_eq_false]
  intro x _
  simp only [Function.comp, beq_eq_false_iff_ne, ne_eq]
  intro h
  exact nlToSpace_ne_newline x ((of_decide_eq_true h).symm)

theorem collapseNewlines_eq_empty_iff (s : String) :
    collapseNewlines s = "" ↔ s = "" := by
  rw [String.ext_iff, String.ext_iff]
  show s.data.map nlToSpace = "".data ↔ s.data = "".data
  show s.data.map nlToSpace = [] ↔ s.data = []
  simp [List.map_eq_nil_iff]

/-! ## Claim theorems -/

/-- C2 (amended): for every raw vulnerability record that normalizes
successfully, the description is the fallback chain (summary, else
details, else the literal N/A) with embedded newlines collapsed to spaces;
it contains no newline, it is empty exactly when the chosen field is the
empty string, and it is the literal N/A when both summary and details are
absent or null. -/
theorem description_fallback_chain (r : RawVuln) (v : VulnerabilityResult)
    (h : vulnResult r = .ok v) :
    v.description = buildDescription r.summary r.details ∧
    hasNewline v.description = false ∧
    (v.description = "" ↔ chosenField r.summary r.details = "") ∧
    (r.summary.join = none → r.details.join = none → v.description = "N/A") := by
  have hd : v.description = buildDescription r.summary r.details := by
    unfold vulnResult at h
    cases hp : parseFixVersions r.fixed_in with
    | error e => rw [hp] at h; cases h
    | ok fvs => rw [hp] at h; cases h; rfl
  refine ⟨hd, ?_, ?_, ?_⟩
  · rw [hd]
    exact hasNewline_collapseNewlines (chosenField r.summary r.details)
  · rw [hd]
    exact collapseNewlines_eq_empty_iff (chosenField r.summary r.details)
  · intro h1 h2
    rw [hd]
    show collapseNewlines (chosenField r.summary r.details) = "N/A"
    unfold chosenField
    rw [h1, h2]
    decide

/-- Witness for C2 at the record of the fallback test table: a multi-line
summary is collapsed to one line and the result is non-empty. -/
theorem description_fallback_chain_witness :
    (⟨"VULN-0", "fakesummary another line", [⟨[1, 1]⟩], ["foo"],
        none⟩ : VulnerabilityResult).description =
      buildDescription (some (some "fakesummary\nanother line")) (some (some "fakedetails")) ∧
    hasNewline "fakesummary another line" = false ∧
    ¬ ("fakesummary another line" : String) = "" := by
  have h := description_fallback_chain
    ⟨"VULN-0", some (some "fakesummary\nanother line"), some (some "fakedetails"),
      ["1.1"], ["foo"], none, none⟩
    ⟨"VULN-0", "fakesummary another line", [⟨[1, 1]⟩], ["foo"], none⟩
    (by decide)
  exact ⟨h.1, h.2.1, by decide⟩

/-- C2 (counterexample): a record whose summary is present but is the
empty string yields an empty description, so the description is not
always non-empty. -/
theorem empty_summary_description_counterexample :
    (query_all
        (constFeed (.http 200 ⟨[], some [⟨"VULN-0", some (some ""),
          some (some "fakedetails"), [], [], none, none⟩]⟩))
        [.resolved ⟨"foo", ⟨[1, 0]⟩, []⟩]).error = none ∧
    ((query_all
        (constFeed (.http 200 ⟨[], some [⟨"VULN-0", some (some ""),
          some (some "fakedetails"), [], [], none, none⟩]⟩))
        [.resolved ⟨"foo", ⟨[1, 0]⟩, []⟩]).pairs.map
          fun p => p.2.map VulnerabilityResult.description) = [[""]] := by
  decide

/-- C10: a summary or details key that is present with a null value is
treated exactly like an omitted key: the normalized record is the same,
and with both null the description falls back to the literal N/A. -/
theorem null_summary_same_as_missing (r : RawVuln) (dt : Option (Option String)) :
    vulnResult {r with summary := some none} = vulnResult {r with summary := none} ∧
    vulnResult {r with details := some none} = vulnResult {r with details := none} ∧
    buildDescription (some none) dt = buildDescription none dt ∧
    buildDescription (some none) (some none) = "N/A" := by
  refine ⟨rfl, rfl, rfl, by decide⟩

/-- C1 (amended): a 404 response converts the resolved dependency into a
fresh `SkippedDependency` carrying its name and the not-found skip reason,
mapped to no vulnerabilities; no error is raised, the reason is logged,
and the original resolved key is absent from the output. -/
theorem notfound_skips_dependency (feed : ResolvedDependency → FeedResponse)
    (d : ResolvedDependency) (body : ResponseBody)
    (hfeed : feed d = .http 404 body) :
    query_all feed [.resolved d] =
      ⟨[(.skipped ⟨d.name, notFoundReason d⟩, [])], none,
        [notFoundReason d], [depUrl d]⟩ ∧
    Dependency.resolved d ∉ (query_all feed [.resolved d]).pairs.map Prod.fst := by
  have hq := query_all_singleton_of_step feed (.resolved d) _ _ _
    (queryOne_notfound feed d body hfeed)
  refine ⟨hq, ?_⟩
  rw [hq]
  simp

/-- Witness for C1 at the not-found test scenario: name jinja2, version
2.4.1, and the exact skip reason the test suite pins down. -/
theorem notfound_skips_dependency_witness :
    query_all (constFeed (.http 404 ⟨[], none⟩)) [.resolved ⟨"jinja2", ⟨[2, 4, 1]⟩, []⟩] =
      ⟨[(.skipped ⟨"jinja2", notFoundReason ⟨"jinja2", ⟨[2, 4, 1]⟩, []⟩⟩, [])], none,
        [notFoundReason ⟨"jinja2", ⟨[2, 4, 1]⟩, []⟩], [depUrl ⟨"jinja2", ⟨[2, 4, 1]⟩, []⟩]⟩ ∧
    Dependency.resolved ⟨"jinja2", ⟨[2, 4, 1]⟩, []⟩ ∉
      (query_all (constFeed (.http 404 ⟨[], none⟩))
        [.resolved ⟨"jinja2", ⟨[2, 4, 1]⟩, []⟩]).pairs.map Prod.fst ∧
    notFoundReason ⟨"jinja2", ⟨[2, 4, 1]⟩, []⟩ =
      "Dependency not found on PyPI and could not be audited: jinja2 (2.4.1)" := by
  have h := notfound_skips_dependency (constFeed (.http 404 ⟨[], none⟩))
    ⟨"jinja2", ⟨[2, 4, 1]⟩, []⟩ ⟨[], none⟩ rfl
  exact ⟨h.1, h.2, by decide⟩

/-- C1 (counterexample): on a 404 for jinja2 2.4.1 the synthesized skip
reason is the PyPI-specific sentence of the test suite, not the
feed-generic sentence of the claim; the key carrying the claimed reason is
absent from the output. -/
theorem notfound_reason_counterexample :
    ((query_all (constFeed (.http 404 ⟨[], none⟩))
        [.resolved ⟨"jinja2", ⟨[2, 4, 1]⟩, []⟩]).pairs.map Prod.fst =
      [Dependency.skipped ⟨"jinja2",
        "Dependency not found on PyPI and could not be audited: jinja2 (2.4.1)"⟩]) ∧
    Dependency.skipped ⟨"jinja2",
        "dependency not found on feed and could not be audited: jinja2 (2.4.1)"⟩ ∉
      (query_all (constFeed (.http 404 ⟨[], none⟩))
        [.resolved ⟨"jinja2", ⟨[2, 4, 1]⟩, []⟩]).pairs.map Prod.fst := by
  decide

/-- C5 (amended): a transport-level failure aborts `query_all` with a
`ConnectionError` whose message identifies the failure class: the
redirect-loop message and the connect-timeout message name PyPI as the
feed, exactly as the test suite pins them down. -/
theorem transport_errors_raise_connection_error (feed : ResolvedDependency → FeedResponse)
    (d : ResolvedDependency) :
    (feed d = .tooManyRedirects →
      query_all feed [.resolved d] =
        ⟨[], some (.connectionError redirectMsg), [], [depUrl d]⟩) ∧
    (feed d = .connectTimeout →
      query_all feed [.resolved d] =
        ⟨[], some (.connectionError connectMsg), [], [depUrl d]⟩) := by
  constructor
  · intro h
    exact query_all_singleton_of_error feed (.resolved d) _ _ _ (by simp only [queryOne, h])
  · intro h
    exact query_all_singleton_of_error feed (.resolved d) _ _ _ (by simp only [queryOne, h])

/-- Witness for C5 at the two transport failures of the test suite. -/
theorem transport_errors_witness :
    query_all (constFeed .tooManyRedirects) [.resolved ⟨"fakedep", ⟨[1, 0, 0]⟩, []⟩] =
      ⟨[], some (.connectionError redirectMsg), [], [depUrl ⟨"fakedep", ⟨[1, 0, 0]⟩, []⟩]⟩ ∧
    query_all (constFeed .connectTimeout) [.resolved ⟨"fakedep", ⟨[1, 0, 0]⟩, []⟩] =
      ⟨[], some (.connectionError connectMsg), [], [depUrl ⟨"fakedep", ⟨[1, 0, 0]⟩, []⟩]⟩ :=
  ⟨(transport_errors_raise_connection_error (constFeed .tooManyRedirects)
      ⟨"fakedep", ⟨[1, 0, 0]⟩, []⟩).1 rfl,
    (transport_errors_raise_connection_error (constFeed .connectTimeout)
      ⟨"fakedep", ⟨[1, 0, 0]⟩, []⟩).2 rfl⟩

/-- C5 (counterexample): the redirect-loop message is the PyPI-specific
sentence, not the feed-generic sentence of the claim. -/
theorem transport_error_message_counterexample :
    (query_all (constFeed .tooManyRedirects) [.resolved ⟨"fakedep", ⟨[1, 0, 0]⟩, []⟩]).error =
      some (.connectionError "PyPI is not redirecting properly") ∧
    ¬ (query_all (constFeed .tooManyRedirects) [.resolved ⟨"fakedep", ⟨[1, 0, 0]⟩, []⟩]).error =
      some (.connectionError "feed is not redirecting properly") ∧
    ¬ (query_all (constFeed .connectTimeout) [.resolved ⟨"fakedep", ⟨[1, 0, 0]⟩, []⟩]).error =
      some (.connectionError "could not connect to feed") := by
  decide

/-- C6: an HTTP error status other than 404 aborts `query_all` with a
`ServiceError` and produces no result pair for the call. -/
theorem http_error_raises_service_error (feed : ResolvedDependency → FeedResponse)
    (d : ResolvedDependency) (status : Nat) (body : ResponseBody)
    (hfeed : feed d = .http status body) (h400 : 400 ≤ status) (h600 : status < 600)
    (h404 : ¬ status = 404) :
    (query_all feed [.resolved d]).error =
      some (.serviceError ("Failed to query PyPI for " ++ depUrl d)) ∧
    (query_all feed [.resolved d]).pairs = [] := by
  have hq := query_all_singleton_of_error feed (.resolved d) _ _ _
    (queryOne_http_error feed d status body hfeed h400 h600 h404)
  rw [hq]
  exact ⟨rfl, rfl⟩

/-- Witness for C6 at the 403 scenario of the test suite. -/
theorem http_error_raises_service_error_witness :
    (query_all (constFeed (.http 403 ⟨[], none⟩))
        [.resolved ⟨"jinja2", ⟨[2, 4, 1]⟩, []⟩]).error =
      some (.serviceError ("Failed to query PyPI for " ++ depUrl ⟨"jinja2", ⟨[2, 4, 1]⟩, []⟩)) ∧
    (query_all (constFeed (.http 403 ⟨[], none⟩))
        [.resolved ⟨"jinja2", ⟨[2, 4, 1]⟩, []⟩]).pairs = [] :=
  http_error_raises_service_error (constFeed (.http 403 ⟨[], none⟩))
    ⟨"jinja2", ⟨[2, 4, 1]⟩, []⟩ 403 ⟨[], none⟩ rfl (by decide) (by decide) (by decide)

theorem checkHashes_error_shape (d : ResolvedDependency) (body : ResponseBody)
    (e : ServiceErr) (h : checkHashes d body = .error e) : ∃ m, e = .serviceError m := by
  unfold checkHashes at h
  split at h
  · cases h
  · split at h
    · cases h; exact ⟨_, rfl⟩
    · split at h
      · cases h
      · cases h; exact ⟨_, rfl⟩

theorem anyHashMatch_nil (hashes : List (String × List String)) :
    anyHashMatch hashes [] = false := by
  simp [anyHashMatch, digestMatches]

/-- C3: every record carrying a withdrawal marker is absent from the
yielded vulnerability sequence (the sequence is exactly the normalization
of the non-withdrawn records), the dependency itself still appears in the
results, and a debug notice naming the record id and its withdrawal
timestamp is emitted. -/
theorem withdrawn_records_filtered (feed : ResolvedDependency → FeedResponse)
    (d : ResolvedDependency) (body : ResponseBody) (rs : List RawVuln)
    (vs : List VulnerabilityResult)
    (hfeed : feed d = .http 200 body) (hvk : body.vulnerabilities = some rs)
    (hok : (query_all feed [.resolved d]).error = none)
    (hvs : activeResults rs = .ok vs) :
    (query_all feed [.resolved d]).pairs = [(.resolved d, vs)] ∧
    ∀ r ∈ rs, ∀ ts, r.withdrawn = some ts →
      withdrawnMsg r.id ts ∈ (query_all feed [.resolved d]).logs := by
  have hrs : body.vulnerabilities.getD [] = rs := by rw [hvk]; rfl
  have hqs := queryOne_success feed d 200 body hfeed (by omega)
  cases hp : processVulns rs with
  | error e =>
    have hstep : queryOne feed (.resolved d) = ⟨.error e, [], [depUrl d]⟩ := by
      rw [hqs, hrs, hp]
    rw [query_all_singleton_of_error feed _ _ _ _ hstep] at hok
    cases hok
  | ok p =>
    obtain ⟨vs2, logs⟩ := p
    obtain ⟨ha, hl⟩ := processVulns_ok hp
    have hv2 : vs2 = vs := by
      rw [ha] at hvs
      cases hvs
      rfl
    subst hv2
    cases hc : checkHashes d body with
    | error e =>
      have hstep : queryOne feed (.resolved d) = ⟨.error e, logs, [depUrl d]⟩ := by
        rw [hqs, hrs, hp, hc]
      rw [query_all_singleton_of_error feed _ _ _ _ hstep] at hok
      cases hok
    | ok u =>
      have hstep : queryOne feed (.resolved d) = ⟨.ok (.resolved d, vs2), logs, [depUrl d]⟩ := by
        rw [hqs, hrs, hp, hc]
      rw [query_all_singleton_of_step feed _ _ _ _ hstep]
      exact ⟨rfl, fun r hr ts hw => hl r hr ts hw⟩

/-- Witness for C3 at the withdrawn-record scenario of the test suite:
the withdrawn record VULN-0 leaves an empty sequence for the dependency
and its withdrawal notice is logged. -/
theorem withdrawn_records_filtered_witness :
    (query_all (constFeed (.http 200 ⟨[], some [⟨"VULN-0",
        some (some "The first vulnerability"), none, ["1.1", "1.4"], ["foo", "bar"],
        some "some-timestamp", none⟩]⟩)) [.resolved ⟨"foo", ⟨[1, 0]⟩, []⟩]).pairs =
      [(.resolved ⟨"foo", ⟨[1, 0]⟩, []⟩, [])] ∧
    ∀ r ∈ [(⟨"VULN-0", some (some "The first vulnerability"), none, ["1.1", "1.4"],
        ["foo", "bar"], some "some-timestamp", none⟩ : RawVuln)],
      ∀ ts, r.withdrawn = some ts →
        withdrawnMsg r.id ts ∈
          (query_all (constFeed (.http 200 ⟨[], some [⟨"VULN-0",
            some (some "The first vulnerability"), none, ["1.1", "1.4"], ["foo", "bar"],
            some "some-timestamp", none⟩]⟩)) [.resolved ⟨"foo", ⟨[1, 0]⟩, []⟩]).logs :=
  withdrawn_records_filtered
    (constFeed (.http 200 ⟨[], some [⟨"VULN-0", some (some "The first vulnerability"),
      none, ["1.1", "1.4"], ["foo", "bar"], some "some-timestamp", none⟩]⟩))
    ⟨"foo", ⟨[1, 0]⟩, []⟩
    ⟨[], some [⟨"VULN-0", some (some "The first vulnerability"), none, ["1.1", "1.4"],
      ["foo", "bar"], some "some-timestamp", none⟩]⟩
    [⟨"VULN-0", some (some "The first vulnerability"), none, ["1.1", "1.4"],
      ["foo", "bar"], some "some-timestamp", none⟩]
    [] rfl rfl (by decide) (by decide)

/-- C4: every skipped dependency of the input passes through as the pair
of itself with an empty vulnerability sequence, and the requests issued
are exactly one per resolved input dependency, so none for it. -/
theorem skipped_dependency_passthrough (feed : ResolvedDependency → FeedResponse)
    (deps : List Dependency) (s : SkippedDependency)
    (hmem : Dependency.skipped s ∈ deps)
    (hok : (query_all feed deps).error = none) :
    (Dependency.skipped s, ([] : List VulnerabilityResult)) ∈ (query_all feed deps).pairs ∧
    (query_all feed deps).requests = urlsOf deps := by
  constructor
  · rcases query_all_ok_steps feed hok _ hmem with ⟨p, hp, hpm⟩
    rw [queryOne_skipped] at hp
    cases hp
    exact hpm
  · exact query_all_requests feed hok

/-- Witness for C4 at the skipped-dependency scenario of the test suite,
with a resolved dependency alongside to show the request trace. -/
theorem skipped_dependency_passthrough_witness :
    (Dependency.skipped ⟨"foo", "skip-reason"⟩, ([] : List VulnerabilityResult)) ∈
      (query_all (constFeed (.http 200 ⟨[], none⟩))
        [.skipped ⟨"foo", "skip-reason"⟩, .resolved ⟨"bar", ⟨[1, 0]⟩, []⟩]).pairs ∧
    (query_all (constFeed (.http 200 ⟨[], none⟩))
        [.skipped ⟨"foo", "skip-reason"⟩, .resolved ⟨"bar", ⟨[1, 0]⟩, []⟩]).requests =
      urlsOf [.skipped ⟨"foo", "skip-reason"⟩, .resolved ⟨"bar", ⟨[1, 0]⟩, []⟩] :=
  skipped_dependency_passthrough (constFeed (.http 200 ⟨[], none⟩))
    [.skipped ⟨"foo", "skip-reason"⟩, .resolved ⟨"bar", ⟨[1, 0]⟩, []⟩]
    ⟨"foo", "skip-reason"⟩ (by decide) (by decide)

/-- C7 (amended): a record that does not carry a withdrawal marker and
whose `fixed_in` contains an entry that is not a parseable version makes
`query_all` raise a `ServiceError` for the whole dependency and yield no
pair for it. -/
theorem invalid_fix_version_raises (feed : ResolvedDependency → FeedResponse)
    (d : ResolvedDependency) (body : ResponseBody) (rs : List RawVuln) (r : RawVuln)
    (v : String)
    (hfeed : feed d = .http 200 body) (hvk : body.vulnerabilities = some rs)
    (hr : r ∈ rs) (hw : r.withdrawn = none) (hv : v ∈ r.fixed_in)
    (hbad : parseVersion v = none) :
    (∃ m, (query_all feed [.resolved d]).error = some (.serviceError m)) ∧
    (query_all feed [.resolved d]).pairs = [] := by
  have hrs : body.vulnerabilities.getD [] = rs := by rw [hvk]; rfl
  rcases vulnResult_bad_entry r v hv hbad with ⟨e, hvr⟩
  rcases processVulns_bad_record hr hw hvr with ⟨e2, hp⟩
  rcases processVulns_error_shape hp with ⟨m, hm⟩
  subst hm
  have hstep : queryOne feed (.resolved d) = ⟨.error (.serviceError m), [], [depUrl d]⟩ := by
    rw [queryOne_success feed d 200 body hfeed (by omega), hrs, hp]
  rw [query_all_singleton_of_error feed _ _ _ _ hstep]
  exact ⟨⟨m, rfl⟩, rfl⟩

/-- Witness for C7 at the invalid-version scenario of the test suite:
an active record whose fixed_in holds an unparseable entry aborts the
query with a service error. -/
theorem invalid_fix_version_raises_witness :
    (∃ m, (query_all (constFeed (.http 200 ⟨[], some [⟨"VULN-0",
        some (some "The first vulnerability"), none, ["invalid_version"], ["foo", "bar"],
        none, none⟩]⟩)) [.resolved ⟨"foo", ⟨[1, 0]⟩, []⟩]).error =
      some (.serviceError m)) ∧
    (query_all (constFeed (.http 200 ⟨[], some [⟨"VULN-0",
        some (some "The first vulnerability"), none, ["invalid_version"], ["foo", "bar"],
        none, none⟩]⟩)) [.resolved ⟨"foo", ⟨[1, 0]⟩, []⟩]).pairs = [] :=
  invalid_fix_version_raises
    (constFeed (.http 200 ⟨[], some [⟨"VULN-0", some (some "The first vulnerability"),
      none, ["invalid_version"], ["foo", "bar"], none, none⟩]⟩))
    ⟨"foo", ⟨[1, 0]⟩, []⟩
    ⟨[], some [⟨"VULN-0", some (some "The first vulnerability"), none,
      ["invalid_version"], ["foo", "bar"], none, none⟩]⟩
    [⟨"VULN-0", some (some "The first vulnerability"), none, ["invalid_version"],
      ["foo", "bar"], none, none⟩]
    ⟨"VULN-0", some (some "The first vulnerability"), none, ["invalid_version"],
      ["foo", "bar"], none, none⟩
    "invalid_version" rfl rfl (by decide) rfl (by decide) (by decide)

/-- C7 (counterexample): a record carrying a withdrawal marker is skipped
before its fixed_in entries are parsed, so an unparseable entry inside a
withdrawn record raises nothing, refuting the claim for every record. -/
theorem withdrawn_invalid_version_counterexample :
    (query_all (constFeed (.http 200 ⟨[], some [⟨"VULN-0",
        some (some "The first vulnerability"), none, ["invalid_version"], ["foo", "bar"],
        some "some-timestamp", none⟩]⟩)) [.resolved ⟨"foo", ⟨[1, 0]⟩, []⟩]).error = none ∧
    parseVersion "invalid_version" = none ∧
    (⟨"VULN-0", some (some "The first vulnerability"), none, ["invalid_version"],
        ["foo", "bar"], some "some-timestamp", none⟩ : RawVuln).withdrawn =
      some "some-timestamp" := by
  decide

/-- C8: for a resolved dependency with supplied hashes, missing release
artifact entries are fatal, no digest match is fatal, and a match on any
single supplied digest accepts the dependency and produces its
vulnerability sequence normally. -/
theorem hash_integrity_check (feed : ResolvedDependency → FeedResponse)
    (d : ResolvedDependency) (body : ResponseBody)
    (hfeed : feed d = .http 200 body) (hh : d.hashes.isEmpty = false) :
    (body.urls = [] →
      (∃ m, (query_all feed [.resolved d]).error = some (.serviceError m)) ∧
      (query_all feed [.resolved d]).pairs = []) ∧
    (anyHashMatch d.hashes body.urls = false →
      (∃ m, (query_all feed [.resolved d]).error = some (.serviceError m)) ∧
      (query_all feed [.resolved d]).pairs = []) ∧
    (∀ vs logs, anyHashMatch d.hashes body.urls = true →
      processVulns (body.vulnerabilities.getD []) = .ok (vs, logs) →
      query_all feed [.resolved d] = ⟨[(.resolved d, vs)], none, logs, [depUrl d]⟩) := by
  have hqs := queryOne_success feed d 200 body hfeed (by omega)
  have herr : ∀ e0 : ServiceErr, checkHashes d body = .error e0 →
      (∃ m, (query_all feed [.resolved d]).error = some (.serviceError m)) ∧
      (query_all feed [.resolved d]).pairs = [] := by
    intro e0 hc
    cases hp : processVulns (body.vulnerabilities.getD []) with
    | error e =>
      rcases processVulns_error_shape hp with ⟨m, hm⟩
      subst hm
      have hstep : queryOne feed (.resolved d) = ⟨.error (.serviceError m), [], [depUrl d]⟩ := by
        rw [hqs, hp]
      rw [query_all_singleton_of_error feed _ _ _ _ hstep]
      exact ⟨⟨m, rfl⟩, rfl⟩
    | ok p =>
      obtain ⟨vs, logs⟩ := p
      rcases checkHashes_error_shape d body e0 hc with ⟨m, hm⟩
      subst hm
      have hstep : queryOne feed (.resolved d) = ⟨.error (.serviceError m), logs, [depUrl d]⟩ := by
        rw [hqs, hp, hc]
      rw [query_all_singleton_of_error feed _ _ _ _ hstep]
      exact ⟨⟨m, rfl⟩, rfl⟩
  refine ⟨?_, ?_, ?_⟩
  · intro hurls
    have hc : checkHashes d body = .error (.serviceError
        ("No available release information for: " ++ d.name)) := by
      unfold checkHashes
      rw [if_neg (by simp [hh]), if_pos (by rw [hurls]; rfl)]
    exact herr _ hc
  · intro hmatch
    have hc : ∃ e0, checkHashes d body = .error e0 := by
      unfold checkHashes
      rw [if_neg (by simp [hh])]
      by_cases hu : body.urls.isEmpty = true
      · rw [if_pos hu]
        exact ⟨_, rfl⟩
      · rw [if_neg hu, if_neg (by simp [hmatch])]
        exact ⟨_, rfl⟩
    rcases hc with ⟨e0, hc⟩
    exact herr e0 hc
  · intro vs logs hmatch hp
    have hune : body.urls.isEmpty = false := by
      cases hbu : body.urls with
      | nil =>
        rw [hbu, anyHashMatch_nil] at hmatch
        cases hmatch
      | cons a as => rfl
    have hc : checkHashes d body = .ok () := by
      unfold checkHashes
      rw [if_neg (by simp [hh]), if_neg (by simp [hune]), if_pos hmatch]
    have hstep : queryOne feed (.resolved d) = ⟨.ok (.resolved d, vs), logs, [depUrl d]⟩ := by
      rw [hqs, hp, hc]
    exact query_all_singleton_of_step feed _ _ _ _ hstep

/-- Witness for C8 at the three hash scenarios of the test suite: empty
release metadata is fatal, a mismatched digest is fatal, and a matching
digest accepts the dependency. -/
theorem hash_integrity_check_witness :
    ((∃ m, (query_all (constFeed (.http 200 ⟨[], none⟩))
        [.resolved ⟨"foo", ⟨[1, 0]⟩, [("sha256", ["package-hash"])]⟩]).error =
      some (.serviceError m)) ∧
     (query_all (constFeed (.http 200 ⟨[], none⟩))
        [.resolved ⟨"foo", ⟨[1, 0]⟩, [("sha256", ["package-hash"])]⟩]).pairs = []) ∧
    ((∃ m, (query_all (constFeed (.http 200 ⟨[⟨[("sha256", "other-hash")]⟩], none⟩))
        [.resolved ⟨"foo", ⟨[1, 0]⟩, [("sha256", ["package-hash"])]⟩]).error =
      some (.serviceError m)) ∧
     (query_all (constFeed (.http 200 ⟨[⟨[("sha256", "other-hash")]⟩], none⟩))
        [.resolved ⟨"foo", ⟨[1, 0]⟩, [("sha256", ["package-hash"])]⟩]).pairs = []) ∧
    query_all (constFeed (.http 200 ⟨[⟨[("sha256", "package-hash")]⟩], none⟩))
        [.resolved ⟨"foo", ⟨[1, 0]⟩, [("sha256", ["package-hash"])]⟩] =
      ⟨[(.resolved ⟨"foo", ⟨[1, 0]⟩, [("sha256", ["package-hash"])]⟩, [])], none, [],
        [depUrl ⟨"foo", ⟨[1, 0]⟩, [("sha256", ["package-hash"])]⟩]⟩ :=
  ⟨(hash_integrity_check (constFeed (.http 200 ⟨[], none⟩))
      ⟨"foo", ⟨[1, 0]⟩, [("sha256", ["package-hash"])]⟩ ⟨[], none⟩ rfl rfl).1 rfl,
    (hash_integrity_check (constFeed (.http 200 ⟨[⟨[("sha256", "other-hash")]⟩], none⟩))
      ⟨"foo", ⟨[1, 0]⟩, [("sha256", ["package-hash"])]⟩
      ⟨[⟨[("sha256", "other-hash")]⟩], none⟩ rfl rfl).2.1 (by decide),
    (hash_integrity_check (constFeed (.http 200 ⟨[⟨[("sha256", "package-hash")]⟩], none⟩))
      ⟨"foo", ⟨[1, 0]⟩, [("sha256", ["package-hash"])]⟩
      ⟨[⟨[("sha256", "package-hash")]⟩], none⟩ rfl rfl).2.2 [] [] (by decide) rfl⟩

/-- C9 (amended): on an input of dependencies none of which receives a
404 response, a completed `query_all` yields exactly one pair per input
dependency keyed by that dependency, in order, and a successful body
without a vulnerabilities key maps its dependency to the empty sequence. -/
theorem result_mapping_complete (feed : ResolvedDependency → FeedResponse)
    (deps : List Dependency)
    (hok : (query_all feed deps).error = none)
    (h404 : ∀ (d : ResolvedDependency) (body : ResponseBody),
      Dependency.resolved d ∈ deps → ¬ feed d = .http 404 body) :
    (query_all feed deps).pairs.map Prod.fst = deps ∧
    ∀ (d : ResolvedDependency) (st : Nat) (body : ResponseBody),
      Dependency.resolved d ∈ deps → feed d = .http st body → st < 400 →
      body.vulnerabilities = none →
      (Dependency.resolved d, ([] : List VulnerabilityResult)) ∈
        (query_all feed deps).pairs := by
  refine ⟨query_all_keys feed hok h404, ?_⟩
  intro d st body hmem hfeed hst hvk
  rcases query_all_ok_steps feed hok _ hmem with ⟨p, hp, hpm⟩
  rw [queryOne_success feed d st body hfeed (by omega)] at hp
  have hrs : body.vulnerabilities.getD [] = ([] : List RawVuln) := by rw [hvk]; rfl
  rw [hrs] at hp
  rw [show processVulns [] = .ok ([], []) from rfl] at hp
  cases hc : checkHashes d body with
  | error e => rw [hc] at hp; cases hp
  | ok u =>
    rw [hc] at hp
    cases hp
    exact hpm

/-- Witness for C9 at the no-vulnerabilities-key scenario of the test
suite. -/
theorem result_mapping_complete_witness :
    (query_all (constFeed (.http 200 ⟨[], none⟩))
        [.resolved ⟨"foo", ⟨[1, 0]⟩, []⟩]).pairs.map Prod.fst =
      [.resolved ⟨"foo", ⟨[1, 0]⟩, []⟩] ∧
    ∀ (d : ResolvedDependency) (st : Nat) (body : ResponseBody),
      Dependency.resolved d ∈ [Dependency.resolved ⟨"foo", ⟨[1, 0]⟩, []⟩] →
      constFeed (.http 200 ⟨[], none⟩) d = .http st body → st < 400 →
      body.vulnerabilities = none →
      (Dependency.resolved d, ([] : List VulnerabilityResult)) ∈
        (query_all (constFeed (.http 200 ⟨[], none⟩))
          [.resolved ⟨"foo", ⟨[1, 0]⟩, []⟩]).pairs :=
  result_mapping_complete (constFeed (.http 200 ⟨[], none⟩))
    [.resolved ⟨"foo", ⟨[1, 0]⟩, []⟩] (by decide)
    (by intro d body hmem h; simp [constFeed] at h)

/-- C9 (counterexample): a completed call in which the only dependency
received a 404 response yields no entry keyed by that input dependency,
refuting the claim that no entry is ever missing. -/
theorem result_mapping_404_counterexample :
    (query_all (constFeed (.http 404 ⟨[], none⟩))
        [.resolved ⟨"foo", ⟨[1, 0]⟩, []⟩]).error = none ∧
    Dependency.resolved ⟨"foo", ⟨[1, 0]⟩, []⟩ ∉
      (query_all (constFeed (.http 404 ⟨[], none⟩))
        [.resolved ⟨"foo", ⟨[1, 0]⟩, []⟩]).pairs.map Prod.fst := by
  decide
